import Mathlib

/-!
Shallow embedding of the Health-Insurance-DAO Solana programs.

The repository contains four separate program variants, each with its own
`process_instruction` entrypoint and its own `HealthInsuranceDAO` state type:
  * `src/Claims_Handling.rs`            — namespace `CH`
  * `src/Financial_Risk_Management.rs`  — namespace `FRM`
  * `src/Dispute_Resolution.rs`         — namespace `DR`
  * `src/Security_Privacy.rs`           — namespace `SP`

Each instruction arm is translated into a pure function
`State → args → Except ProgramError State`; the Rust code deserializes the
account, mutates an in-memory copy inside one `match` arm, and serializes back
only after the `match` succeeds, so an `Except.error` result models an
operation whose early `return Err(..)` skips the final `serialize` and leaves
the persisted account bytes untouched.  Machine integers (`u64`, `u8`) are
modelled as `Nat` with explicit `2 ^ 64` bounds where the Rust code uses
checked arithmetic.  A `Pubkey` (32 bytes) is modelled as a `Nat`; its first
byte, the only byte the code inspects (in `calculate_risk_score`), is `k % 256`.
The `f32` field `reserve_ratio` is modelled as an exact rational `ℚ`; the Rust
expression `(balance as f32 * reserve_ratio) as u64` is modelled as
`⌊balance * reserve_ratio⌋` (the truncation the cast performs when the float
arithmetic is exact).
-/

/-- A 32-byte Solana public key, modelled as a natural number.  Only equality
and the first byte (`k % 256`) are ever inspected by the programs. -/
abbrev Pubkey := Nat

/-- The `solana_program::program_error::ProgramError` variants the four
programs actually return. -/
inductive ProgramError where
  | IncorrectProgramId
  | InvalidAccountData
  | InvalidArgument
  | InvalidInstructionData
  | InsufficientFunds
  | ArithmeticOverflow
  | AccountAlreadyInUse
deriving DecidableEq

namespace CH

/-- `ClaimStatus` from `src/Claims_Handling.rs`. -/
inductive ClaimStatus where
  | Pending
  | Verified
  | Rejected
  | Paid
deriving DecidableEq

/-- `Claim` from `src/Claims_Handling.rs`. -/
structure Claim where
  claim_id : Nat
  member : Pubkey
  amount : Nat
  service_date : Int
  service_type : String
  provider : Pubkey
  status : ClaimStatus
  verifiers : List Pubkey
deriving DecidableEq

/-- The basic `Member` record pushed by the join arm of
`src/Claims_Handling.rs` (`member_address`, `joined_timestamp`). -/
structure Member where
  member_address : Pubkey
  joined_timestamp : Int
deriving DecidableEq

/-- `HealthInsuranceDAO` from `src/Claims_Handling.rs`. -/
structure HealthInsuranceDAO where
  admin : Pubkey
  members : List Member
  claims : List Claim
  treasury : Pubkey
deriving DecidableEq

/-- Instruction arm `0` of `src/Claims_Handling.rs`: join the DAO.  The
member is appended unconditionally; there is no duplicate check in this file.
`now` is the `Clock::get()?.unix_timestamp` value supplied by the runtime. -/
def join (dao : HealthInsuranceDAO) (member : Pubkey) (now : Int) :
    Except ProgramError HealthInsuranceDAO :=
  .ok { dao with members := dao.members ++ [⟨member, now⟩] }

/-- Instruction arm `1` of `src/Claims_Handling.rs`: submit a new claim with
`claim_id = claims.len()`, status `Pending`, empty verifier list. -/
def submitClaim (dao : HealthInsuranceDAO) (member provider : Pubkey)
    (amount : Nat) (service_date : Int) (service_type : String) :
    Except ProgramError HealthInsuranceDAO :=
  .ok { dao with claims := dao.claims ++
    [{ claim_id := dao.claims.length
       member := member
       amount := amount
       service_date := service_date
       service_type := service_type
       provider := provider
       status := ClaimStatus.Pending
       verifiers := [] }] }

/-- Instruction arm `2` of `src/Claims_Handling.rs`: verify a claim.  For a
`Pending` claim the verifier key is pushed unconditionally (the Rust code has
no duplicate-verifier check), and the status becomes `Verified` as soon as the
verifier list length reaches `2`.  Any other status, or an out-of-range index,
returns `InvalidAccountData`. -/
def verifyClaim (dao : HealthInsuranceDAO) (verifier : Pubkey)
    (claim_index : Nat) : Except ProgramError HealthInsuranceDAO :=
  match dao.claims[claim_index]? with
  | some claim =>
    match claim.status with
    | ClaimStatus.Pending =>
      let verifiers' := claim.verifiers ++ [verifier]
      let status' := if verifiers'.length ≥ 2 then ClaimStatus.Verified
                     else ClaimStatus.Pending
      let claim' := { claim with verifiers := verifiers', status := status' }
      .ok { dao with claims := dao.claims.set claim_index claim' }
    | _ => .error ProgramError.InvalidAccountData
  | none => .error ProgramError.InvalidAccountData

/-- Instruction arm `3` of `src/Claims_Handling.rs`: pay out a verified claim.
Only a claim whose status is `Verified` transitions to `Paid`; an out-of-range
index and a claim in any other status both return `InvalidAccountData`. -/
def payoutClaim (dao : HealthInsuranceDAO) (claim_index : Nat) :
    Except ProgramError HealthInsuranceDAO :=
  match dao.claims[claim_index]? with
  | some claim =>
    if claim.status = ClaimStatus.Verified then
      let claim' := { claim with status := ClaimStatus.Paid }
      .ok { dao with claims := dao.claims.set claim_index claim' }
    else
      .error ProgramError.InvalidAccountData
  | none => .error ProgramError.InvalidAccountData

/-- A decoded instruction of `src/Claims_Handling.rs` (the byte-level envelope
decoding is outside the modelled core). -/
inductive Instr where
  | Join (member : Pubkey) (now : Int)
  | SubmitClaim (member provider : Pubkey) (amount : Nat)
      (service_date : Int) (service_type : String)
  | VerifyClaim (verifier : Pubkey) (claim_index : Nat)
  | PayoutClaim (claim_index : Nat)

/-- The dispatch `match instruction_data[0]` of `src/Claims_Handling.rs`. -/
def step (dao : HealthInsuranceDAO) : Instr →
    Except ProgramError HealthInsuranceDAO
  | Instr.Join m now => join dao m now
  | Instr.SubmitClaim m p a d t => submitClaim dao m p a d t
  | Instr.VerifyClaim v i => verifyClaim dao v i
  | Instr.PayoutClaim i => payoutClaim dao i

/-- The persisted account state after running one instruction: the Rust code
serializes `dao_data` back into the account only after the `match` arm
returned without error, so every `Err` path leaves the stored bytes as they
were. -/
def persist (dao : HealthInsuranceDAO) (i : Instr) : HealthInsuranceDAO :=
  match step dao i with
  | .ok dao' => dao'
  | .error _ => dao

end CH

namespace FRM

/-- `u64::MAX + 1`, the bound used by the checked `u64` arithmetic. -/
def U64_LIMIT : Nat := 2 ^ 64

/-- `RiskProfile` from `src/Financial_Risk_Management.rs`. -/
structure RiskProfile where
  risk_score : Nat
  coverage_limit : Nat
deriving DecidableEq

/-- `Treasury` from `src/Financial_Risk_Management.rs`.  `reserve_ratio` is an
`f32` in the Rust code, modelled here as an exact rational. -/
structure Treasury where
  balance : Nat
  reserve_ratio : ℚ
deriving DecidableEq

/-- `HealthInsuranceDAO` from `src/Financial_Risk_Management.rs`.  The file
does not redeclare `Member`/`Claim`; its payout arm reads `claim.member` and
`claim.amount`, so the claim record of `src/Claims_Handling.rs` is reused. -/
structure HealthInsuranceDAO where
  admin : Pubkey
  members : List CH.Member
  claims : List CH.Claim
  treasury : Treasury
  risk_profiles : List RiskProfile
deriving DecidableEq

/-- `calculate_risk_score` from `src/Financial_Risk_Management.rs`:
`(member.as_ref()[0] % 100) as u8`.  The first byte of the modelled key is
`member % 256`. -/
def calculate_risk_score (member : Pubkey) : Nat :=
  (member % 256) % 100

/-- `(dao_data.treasury.balance as f32 * dao_data.treasury.reserve_ratio) as u64`
from the payout arm, modelled as the floor of the exact product (what the
`as u64` cast computes whenever the `f32` arithmetic is exact). -/
def required_reserve (t : Treasury) : Nat :=
  (⌊(t.balance : ℚ) * t.reserve_ratio⌋).toNat

/-- Instruction arm `3` of `src/Financial_Risk_Management.rs`: premium
payment, added to the treasury with `checked_add`. -/
def payPremium (dao : HealthInsuranceDAO) (amount : Nat) :
    Except ProgramError HealthInsuranceDAO :=
  if dao.treasury.balance + amount < U64_LIMIT then
    .ok { dao with treasury := { dao.treasury with
            balance := dao.treasury.balance + amount } }
  else
    .error ProgramError.ArithmeticOverflow

/-- Instruction arm `4` of `src/Financial_Risk_Management.rs`: claim payout.
The claim is looked up by index (`InvalidAccountData` if absent), the risk
profile by `rp.risk_score == calculate_risk_score(claim.member)`
(`InvalidAccountData` if absent), then the coverage check
(`InvalidArgument`), then the reserve check (`InsufficientFunds`), then the
`checked_sub` deduction.  The arm never reads or writes `claim.status`. -/
def payoutClaim (dao : HealthInsuranceDAO) (claim_index : Nat) :
    Except ProgramError HealthInsuranceDAO :=
  match dao.claims[claim_index]? with
  | some claim =>
    match dao.risk_profiles.find?
        (fun rp => rp.risk_score == calculate_risk_score claim.member) with
    | some risk_profile =>
      if claim.amount > risk_profile.coverage_limit then
        .error ProgramError.InvalidArgument
      else if dao.treasury.balance - required_reserve dao.treasury
          < claim.amount then
        .error ProgramError.InsufficientFunds
      else if claim.amount ≤ dao.treasury.balance then
        .ok { dao with treasury := { dao.treasury with
                balance := dao.treasury.balance - claim.amount } }
      else
        .error ProgramError.ArithmeticOverflow
    | none => .error ProgramError.InvalidAccountData
  | none => .error ProgramError.InvalidAccountData

/-- Replace the first list element satisfying `p` by `f` applied to it;
`none` when no element matches.  This models
`vec.iter_mut().find(p)` followed by a mutation of the found element. -/
def updateFirst (p : α → Bool) (f : α → α) : List α → Option (List α)
  | [] => none
  | x :: xs =>
    if p x then some (f x :: xs)
    else (updateFirst p f xs).map (x :: ·)

/-- Instruction arm `5` of `src/Financial_Risk_Management.rs`: update or add
a risk profile.  The lookup key is `calculate_risk_score(member.key)` — not
the supplied `new_risk_score` — and on a hit both stored fields are
overwritten with the supplied values; on a miss a new profile is appended.
The arm performs no authorization or membership check and never fails. -/
def updateRiskProfile (dao : HealthInsuranceDAO) (member : Pubkey)
    (new_risk_score : Nat) (new_coverage_limit : Nat) :
    Except ProgramError HealthInsuranceDAO :=
  match updateFirst
      (fun rp => calculate_risk_score member == rp.risk_score)
      (fun _ => ⟨new_risk_score, new_coverage_limit⟩)
      dao.risk_profiles with
  | some profiles' => .ok { dao with risk_profiles := profiles' }
  | none => .ok { dao with risk_profiles :=
      dao.risk_profiles ++ [⟨new_risk_score, new_coverage_limit⟩] }

/-- Instruction arm `6` of `src/Financial_Risk_Management.rs`: only the
stored admin key may set the reserve ratio. -/
def setReserveRatio (dao : HealthInsuranceDAO) (admin : Pubkey)
    (new_reserve_ratio : ℚ) : Except ProgramError HealthInsuranceDAO :=
  if admin ≠ dao.admin then
    .error ProgramError.IncorrectProgramId
  else
    .ok { dao with treasury := { dao.treasury with
            reserve_ratio := new_reserve_ratio } }

/-- A decoded instruction of `src/Financial_Risk_Management.rs` (arms 3–6;
the file elides the earlier arms with a `// ... existing instructions ...`
comment). -/
inductive Instr where
  | PayPremium (amount : Nat)
  | PayoutClaim (claim_index : Nat)
  | UpdateRiskProfile (member : Pubkey) (new_risk_score new_coverage_limit : Nat)
  | SetReserveRatio (admin : Pubkey) (new_reserve_ratio : ℚ)

/-- The dispatch `match instruction_data[0]` of
`src/Financial_Risk_Management.rs`. -/
def step (dao : HealthInsuranceDAO) : Instr →
    Except ProgramError HealthInsuranceDAO
  | Instr.PayPremium a => payPremium dao a
  | Instr.PayoutClaim i => payoutClaim dao i
  | Instr.UpdateRiskProfile m s l => updateRiskProfile dao m s l
  | Instr.SetReserveRatio a r => setReserveRatio dao a r

/-- Persisted state: the account is rewritten only on the `Ok` path. -/
def persist (dao : HealthInsuranceDAO) (i : Instr) : HealthInsuranceDAO :=
  match step dao i with
  | .ok dao' => dao'
  | .error _ => dao

end FRM

namespace DR

/-- `DisputeStatus` from `src/Dispute_Resolution.rs`. -/
inductive DisputeStatus where
  | Open
  | Closed
deriving DecidableEq

/-- `Dispute` from `src/Dispute_Resolution.rs`. -/
structure Dispute where
  dispute_id : Nat
  claim_id : Option Nat
  initiator : Pubkey
  respondent : Pubkey
  description : String
  status : DisputeStatus
  votes : List (Pubkey × Bool)
deriving DecidableEq

/-- `HealthInsuranceDAO` from `src/Dispute_Resolution.rs` (the file elides
the earlier fields with a `// ... existing fields ...` comment; only
`disputes` is accessed). -/
structure HealthInsuranceDAO where
  disputes : List Dispute
deriving DecidableEq

/-- `agree_count * 2 > dispute.votes.len()` — the majority test run when a
dispute closes, deciding whether the outcome favors the initiator. -/
def favorsInitiator (votes : List (Pubkey × Bool)) : Bool :=
  (votes.filter (fun v => v.2)).length * 2 > votes.length

/-- Instruction arm `7` of `src/Dispute_Resolution.rs`: submit a dispute with
`dispute_id = disputes.len()`, `claim_id = None`, status `Open`, no votes. -/
def submitDispute (dao : HealthInsuranceDAO) (initiator respondent : Pubkey)
    (description : String) : Except ProgramError HealthInsuranceDAO :=
  .ok { dao with disputes := dao.disputes ++
    [{ dispute_id := dao.disputes.length
       claim_id := none
       initiator := initiator
       respondent := respondent
       description := description
       status := DisputeStatus.Open
       votes := [] }] }

/-- Instruction arm `8` of `src/Dispute_Resolution.rs`: cast a vote.  On an
`Open` dispute a repeat voter gets `InvalidArgument`; otherwise the vote is
appended and, when the vote count then exceeds `5`, the dispute closes and
the majority outcome is computed (returned here as the `Option Bool`
component: `some b` when the dispute closed with outcome `b`, `none`
otherwise — in the Rust code the outcome is surfaced as log messages).
Voting on a `Closed` dispute returns `InvalidInstructionData`; an
out-of-range index returns `InvalidAccountData`. -/
def castVote (dao : HealthInsuranceDAO) (voter : Pubkey)
    (dispute_index : Nat) (vote : Bool) :
    Except ProgramError (HealthInsuranceDAO × Option Bool) :=
  match dao.disputes[dispute_index]? with
  | some dispute =>
    if dispute.status = DisputeStatus.Open then
      if dispute.votes.any (fun v => v.1 == voter) then
        .error ProgramError.InvalidArgument
      else
        let votes' := dispute.votes ++ [(voter, vote)]
        if votes'.length > 5 then
          let dispute' :=
            { dispute with votes := votes', status := DisputeStatus.Closed }
          .ok ({ dao with disputes := dao.disputes.set dispute_index dispute' },
               some (favorsInitiator votes'))
        else
          let dispute' := { dispute with votes := votes' }
          .ok ({ dao with disputes := dao.disputes.set dispute_index dispute' },
               none)
    else
      .error ProgramError.InvalidInstructionData
  | none => .error ProgramError.InvalidAccountData

/-- A decoded instruction of `src/Dispute_Resolution.rs` (arms 7 and 8). -/
inductive Instr where
  | SubmitDispute (initiator respondent : Pubkey) (description : String)
  | CastVote (voter : Pubkey) (dispute_index : Nat) (vote : Bool)

/-- The dispatch `match instruction_data[0]` of `src/Dispute_Resolution.rs`;
the dispute outcome is a log-only observable and is dropped here. -/
def step (dao : HealthInsuranceDAO) : Instr →
    Except ProgramError HealthInsuranceDAO
  | Instr.SubmitDispute i r d => submitDispute dao i r d
  | Instr.CastVote v i s => (castVote dao v i s).map (·.1)

/-- Persisted state: the account is rewritten only on the `Ok` path. -/
def persist (dao : HealthInsuranceDAO) (i : Instr) : HealthInsuranceDAO :=
  match step dao i with
  | .ok dao' => dao'
  | .error _ => dao

end DR

namespace SP

/-- `Role` from `src/Security_Privacy.rs`. -/
inductive Role where
  | Admin
  | Member
  | Verifier
deriving DecidableEq

/-- The enhanced `Member` from `src/Security_Privacy.rs`.  The 32-byte
`encrypted_data_hash` is modelled as a list of byte values. -/
structure Member where
  member_address : Pubkey
  joined_timestamp : Int
  role : Role
  encrypted_data_hash : List Nat
deriving DecidableEq

/-- The privacy-enhanced `Claim` from `src/Security_Privacy.rs`. -/
structure Claim where
  claim_id : Nat
  member : Pubkey
  amount : Nat
  zkp_proof : List Nat
deriving DecidableEq

/-- `HealthInsuranceDAO` from `src/Security_Privacy.rs`. -/
structure HealthInsuranceDAO where
  admin : Pubkey
  members : List Member
  claims : List Claim
  multi_sig_signers : List Pubkey
deriving DecidableEq

/-- `verify_zkp` from `src/Security_Privacy.rs`: `proof.len() > 0`. -/
def verify_zkp (proof : List Nat) : Bool :=
  proof.length > 0

/-- Instruction arm `0` of `src/Security_Privacy.rs`: join the DAO.  The
role byte is decoded first (only `1 → Role::Member` is accepted), then a
candidate whose address is already registered is rejected with
`AccountAlreadyInitialized` (modelled by the `AccountAlreadyInUse`
constructor), else the member is appended. -/
def join (dao : HealthInsuranceDAO) (new_member : Pubkey)
    (encrypted_data_hash : List Nat) (role_byte : Nat) (now : Int) :
    Except ProgramError HealthInsuranceDAO :=
  match role_byte with
  | 1 =>
    if dao.members.any (fun m => m.member_address == new_member) then
      .error ProgramError.AccountAlreadyInUse
    else
      .ok { dao with members := dao.members ++
        [{ member_address := new_member
           joined_timestamp := now
           role := Role.Member
           encrypted_data_hash := encrypted_data_hash }] }
  | _ => .error ProgramError.InvalidInstructionData

/-- Instruction arm `1` of `src/Security_Privacy.rs`: submit a claim; the
caller must be a registered `Member` and the proof must pass `verify_zkp`;
the amount is the hard-coded `1000000`. -/
def submitClaim (dao : HealthInsuranceDAO) (member : Pubkey)
    (zkp_proof : List Nat) : Except ProgramError HealthInsuranceDAO :=
  if ¬ dao.members.any
      (fun m => m.member_address == member && m.role == Role.Member) then
    .error ProgramError.InvalidArgument
  else if ¬ verify_zkp zkp_proof then
    .error ProgramError.InvalidArgument
  else
    .ok { dao with claims := dao.claims ++
      [{ claim_id := dao.claims.length
         member := member
         amount := 1000000
         zkp_proof := zkp_proof }] }

/-- Instruction arm `2` of `src/Security_Privacy.rs`: the multi-sig
placeholder — fails when fewer signers than `multi_sig_signers` are present,
otherwise changes nothing. -/
def multiSig (dao : HealthInsuranceDAO) (signers : List Pubkey) :
    Except ProgramError HealthInsuranceDAO :=
  if signers.length < dao.multi_sig_signers.length then
    .error ProgramError.InvalidArgument
  else
    .ok dao

/-- A decoded instruction of `src/Security_Privacy.rs`. -/
inductive Instr where
  | Join (new_member : Pubkey) (hash : List Nat) (role_byte : Nat) (now : Int)
  | SubmitClaim (member : Pubkey) (zkp_proof : List Nat)
  | MultiSig (signers : List Pubkey)

/-- The dispatch `match instruction_data[0]` of `src/Security_Privacy.rs`. -/
def step (dao : HealthInsuranceDAO) : Instr →
    Except ProgramError HealthInsuranceDAO
  | Instr.Join m h r now => join dao m h r now
  | Instr.SubmitClaim m p => submitClaim dao m p
  | Instr.MultiSig s => multiSig dao s

/-- Persisted state: the account is rewritten only on the `Ok` path. -/
def persist (dao : HealthInsuranceDAO) (i : Instr) : HealthInsuranceDAO :=
  match step dao i with
  | .ok dao' => dao'
  | .error _ => dao

end SP

/-! Concrete states used by the counterexamples and witnesses below. -/

/-- A `Verified` claim of amount `100` submitted by member `7`. -/
def exClaimVerified : CH.Claim :=
  { claim_id := 0, member := 7, amount := 100, service_date := 0,
    service_type := "", provider := 1, status := CH.ClaimStatus.Verified,
    verifiers := [2, 3] }

/-- A `Pending` claim of amount `100` submitted by member `7`. -/
def exClaimPending : CH.Claim :=
  { claim_id := 0, member := 7, amount := 100, service_date := 0,
    service_type := "", provider := 1, status := CH.ClaimStatus.Pending,
    verifiers := [] }

/-- A financial-risk-management state holding `exClaimVerified`, a matching
risk profile for bucket `7` with coverage `1000`, and a treasury of `1000`
with reserve ratio `0`. -/
def exFrmDaoV : FRM.HealthInsuranceDAO :=
  { admin := 0, members := [], claims := [exClaimVerified],
    treasury := { balance := 1000, reserve_ratio := 0 },
    risk_profiles := [⟨7, 1000⟩] }

/-- `exFrmDaoV` after one payout of claim `0` (balance reduced by `100`;
the claim record untouched). -/
def exFrmDaoV1 : FRM.HealthInsuranceDAO :=
  { exFrmDaoV with treasury := { balance := 900, reserve_ratio := 0 } }

/-- Like `exFrmDaoV` but the stored claim is still `Pending`. -/
def exFrmDaoP : FRM.HealthInsuranceDAO :=
  { exFrmDaoV with claims := [exClaimPending] }

/-- A financial-risk-management state where claim `0` (amount `2000`,
member `7`) exceeds both the bucket-7 coverage limit `1000` and the
reserve-adjusted balance (`balance 1000`, ratio `1/2`, available `500`). -/
def exFrmDaoLim : FRM.HealthInsuranceDAO :=
  { admin := 0, members := [],
    claims := [{ exClaimVerified with amount := 2000 }],
    treasury := { balance := 1000, reserve_ratio := 1 / 2 },
    risk_profiles := [⟨7, 1000⟩] }

/-- A financial-risk-management state whose only risk profile sits in
bucket `5`. -/
def exFrmDaoRisk : FRM.HealthInsuranceDAO :=
  { admin := 0, members := [], claims := [],
    treasury := { balance := 0, reserve_ratio := 0 },
    risk_profiles := [⟨5, 100⟩] }

/-- A claims-handling state whose claim `0` is `Pending` with verifier `5`
already recorded. -/
def exChDaoDup : CH.HealthInsuranceDAO :=
  { admin := 0, members := [], claims := [{ exClaimPending with verifiers := [5] }],
    treasury := 9 }

/-- A claims-handling state whose claim `0` is `Verified`. -/
def exChDaoVer : CH.HealthInsuranceDAO :=
  { admin := 0, members := [], claims := [exClaimVerified], treasury := 9 }

/-- A claims-handling state already containing a member with address `3`. -/
def exChDaoJoin : CH.HealthInsuranceDAO :=
  { admin := 0, members := [⟨3, 0⟩], claims := [], treasury := 9 }

/-- An `Open` dispute with five recorded votes (three supporting the
initiator, two against). -/
def exDispute5 : DR.Dispute :=
  { dispute_id := 0, claim_id := none, initiator := 1, respondent := 2,
    description := "", status := DR.DisputeStatus.Open,
    votes := [(1, true), (2, true), (3, true), (4, false), (5, false)] }

/-- A dispute-resolution state holding `exDispute5`. -/
def exDrDao : DR.HealthInsuranceDAO :=
  { disputes := [exDispute5] }

/-- `exDrDao` after voter `6` casts a `false` vote: six votes, the dispute
closes, three of six supporting votes is an exact tie. -/
def exDrDaoClosed : DR.HealthInsuranceDAO :=
  { disputes := [{ exDispute5 with
      votes := exDispute5.votes ++ [(6, false)],
      status := DR.DisputeStatus.Closed }] }

/-- A security-privacy state already containing a member with address `3`. -/
def exSpDao : SP.HealthInsuranceDAO :=
  { admin := 0,
    members := [{ member_address := 3, joined_timestamp := 0,
                  role := SP.Role.Member, encrypted_data_hash := [] }],
    claims := [], multi_sig_signers := [] }

/-! ## Theorems -/

/-- Claim C10: `UpdateRiskProfile` performs no authorization check — for
every caller identifier (admin, member, or stranger) the operation never
fails; it always returns a successfully updated state. -/
theorem C10_theorem (dao : FRM.HealthInsuranceDAO) (caller : Pubkey)
    (new_risk_score new_coverage_limit : Nat) :
    (FRM.updateRiskProfile dao caller new_risk_score new_coverage_limit).isOk
      = true := by
  unfold FRM.updateRiskProfile
  cases h : FRM.updateFirst
      (fun rp => FRM.calculate_risk_score caller == rp.risk_score)
      (fun _ => ⟨new_risk_score, new_coverage_limit⟩)
      dao.risk_profiles <;> rfl

/-- Claim C5: in each of the four programs, when an instruction returns an
error the persisted aggregate equals the starting aggregate — the account is
re-serialized only after the dispatch `match` succeeds, and every error path
returns before that point. -/
theorem C5_theorem :
    (∀ (dao : CH.HealthInsuranceDAO) (i : CH.Instr) (e : ProgramError),
       CH.step dao i = .error e → CH.persist dao i = dao) ∧
    (∀ (dao : FRM.HealthInsuranceDAO) (i : FRM.Instr) (e : ProgramError),
       FRM.step dao i = .error e → FRM.persist dao i = dao) ∧
    (∀ (dao : DR.HealthInsuranceDAO) (i : DR.Instr) (e : ProgramError),
       DR.step dao i = .error e → DR.persist dao i = dao) ∧
    (∀ (dao : SP.HealthInsuranceDAO) (i : SP.Instr) (e : ProgramError),
       SP.step dao i = .error e → SP.persist dao i = dao) := by
  refine ⟨?_, ?_, ?_, ?_⟩ <;> intro dao i e h <;>
    simp [CH.persist, FRM.persist, DR.persist, SP.persist, h]

/-- Witness for C5: a concrete failing payout (empty claims list) leaves the
concrete claims-handling state unchanged. -/
theorem C5_witness :
    CH.step exChDaoJoin (CH.Instr.PayoutClaim 0)
      = .error ProgramError.InvalidAccountData ∧
    CH.persist exChDaoJoin (CH.Instr.PayoutClaim 0) = exChDaoJoin :=
  ⟨rfl, C5_theorem.1 exChDaoJoin (CH.Instr.PayoutClaim 0)
    ProgramError.InvalidAccountData rfl⟩


/-- Counterexample for C1: against `exFrmDaoV` the payout arm of
`src/Financial_Risk_Management.rs` succeeds on claim `0`, the resulting state
still records the claim as `Verified` (the arm never writes `claim.status`),
and a second payout of the same claim against the resulting state succeeds
again. -/
theorem C1_counterexample :
    FRM.payoutClaim exFrmDaoV 0 = .ok exFrmDaoV1 ∧
    exFrmDaoV1.claims[0]? = some exClaimVerified ∧
    exClaimVerified.status ≠ CH.ClaimStatus.Paid ∧
    (FRM.payoutClaim exFrmDaoV1 0).isOk = true := by
  refine ⟨?_, rfl, by decide, ?_⟩ <;>
    simp [FRM.payoutClaim, exFrmDaoV, exFrmDaoV1, exClaimVerified,
          FRM.calculate_risk_score, FRM.required_reserve, List.find?,
          Except.isOk, Except.toBool]

/-- Claim C1 (amended): in the claims-handling program, if `PayoutClaim(i)`
succeeds then claim `i` is `Paid` in the resulting state and a second
`PayoutClaim(i)` against it fails; the separate payout arm of the
financial-risk-management program deducts the treasury without changing the
claim status, so there a second payout can succeed
(see `C1_counterexample`). -/
theorem C1_theorem (dao dao' : CH.HealthInsuranceDAO) (i : Nat)
    (h : CH.payoutClaim dao i = .ok dao') :
    (∃ c, dao'.claims[i]? = some c ∧ c.status = CH.ClaimStatus.Paid) ∧
      CH.payoutClaim dao' i = .error ProgramError.InvalidAccountData := by
  unfold CH.payoutClaim at h
  split at h
  next claim hc =>
    split at h
    next hs =>
      injection h with h
      subst h
      have hlt : i < dao.claims.length := by
        rcases List.getElem?_eq_some.mp hc with ⟨hlt, _⟩
        exact hlt
      have hset :
          (dao.claims.set i { claim with status := CH.ClaimStatus.Paid })[i]?
            = some { claim with status := CH.ClaimStatus.Paid } :=
        List.getElem?_set_eq_of_lt _ hlt
      refine ⟨⟨_, hset, rfl⟩, ?_⟩
      simp [CH.payoutClaim, hset]
    next hs => exact absurd h (by simp)
  next hc => exact absurd h (by simp)

/-- Witness for C1: the claims-handling payout of the concrete `Verified`
claim in `exChDaoVer` yields a `Paid` claim and the second payout fails. -/
theorem C1_witness :
    CH.payoutClaim exChDaoVer 0 =
      .ok { exChDaoVer with
            claims := [{ exClaimVerified with status := CH.ClaimStatus.Paid }] } ∧
    ((∃ c, ({ exChDaoVer with
            claims := [{ exClaimVerified with status := CH.ClaimStatus.Paid }]
          } : CH.HealthInsuranceDAO).claims[0]? = some c ∧
          c.status = CH.ClaimStatus.Paid) ∧
      CH.payoutClaim { exChDaoVer with
            claims := [{ exClaimVerified with status := CH.ClaimStatus.Paid }] } 0
        = .error ProgramError.InvalidAccountData) :=
  ⟨rfl, C1_theorem exChDaoVer _ 0 rfl⟩

/-- Counterexample for C2: claim `0` of `exChDaoDup` is `Pending` with
verifier `5` already recorded; `VerifyClaim` with the same verifier `5`
succeeds anyway (no `DuplicateVoteError`), records `5` twice, and the two
duplicate votes push the claim to `Verified`. -/
theorem C2_counterexample :
    CH.verifyClaim exChDaoDup 5 0 =
      .ok { exChDaoDup with claims :=
        [{ exClaimPending with
           verifiers := [5, 5]
           status := CH.ClaimStatus.Verified }] } := rfl

/-- Claim C2 (amended): `VerifyClaim` on a `Pending` claim appends the
verifier identifier unconditionally — the code has no duplicate-verifier
check — so the verifier set can contain the same identifier twice, and the
status becomes `Verified` exactly when the appended list reaches length 2.
This holds for every verifier, including one already present. -/
theorem C2_theorem (dao : CH.HealthInsuranceDAO) (i : Nat) (v : Pubkey)
    (c : CH.Claim) (hc : dao.claims[i]? = some c)
    (hs : c.status = CH.ClaimStatus.Pending) :
    CH.verifyClaim dao v i =
      .ok { dao with claims := dao.claims.set i { c with
        verifiers := c.verifiers ++ [v]
        status := if (c.verifiers ++ [v]).length ≥ 2
                  then CH.ClaimStatus.Verified
                  else CH.ClaimStatus.Pending } } := by
  unfold CH.verifyClaim
  rw [hc]
  rcases c with ⟨id, m, a, d, t, p, st, vs⟩
  subst hs
  rfl

/-- Witness for C2: appending verifier `6` to the concrete `Pending` claim
of `exChDaoDup` (which already holds verifier `5`) succeeds and verifies
the claim. -/
theorem C2_witness :
    exChDaoDup.claims[0]? = some { exClaimPending with verifiers := [5] } ∧
    ({ exClaimPending with verifiers := [5] } : CH.Claim).status
      = CH.ClaimStatus.Pending ∧
    CH.verifyClaim exChDaoDup 6 0 =
      .ok { exChDaoDup with claims :=
        [{ exClaimPending with
           verifiers := [5, 6]
           status := CH.ClaimStatus.Verified }] } :=
  ⟨rfl, rfl, C2_theorem exChDaoDup 0 6 _ rfl rfl⟩

/-- Counterexample for C3: the payout arm of
`src/Financial_Risk_Management.rs` succeeds on a claim whose status is still
`Pending` — it performs no status check at all. -/
theorem C3_counterexample :
    exFrmDaoP.claims[0]? = some exClaimPending ∧
    exClaimPending.status = CH.ClaimStatus.Pending ∧
    (FRM.payoutClaim exFrmDaoP 0).isOk = true := by
  refine ⟨rfl, rfl, ?_⟩
  simp [FRM.payoutClaim, exFrmDaoP, exFrmDaoV, exClaimPending,
        FRM.calculate_risk_score, FRM.required_reserve, List.find?,
        Except.isOk, Except.toBool]

/-- Claim C3 (amended): in the claims-handling program `PayoutClaim(i)`
succeeds exactly when claim `i` exists and is `Verified`; an out-of-range
index and a wrong-status claim both fail, with the single error code
`InvalidAccountData` standing for both `NotFoundError` and
`InvalidStateError`.  The payout arm of the financial-risk-management
program checks only existence, not status (see `C3_counterexample`). -/
theorem C3_theorem (dao : CH.HealthInsuranceDAO) (i : Nat) :
    (dao.claims[i]? = none →
       CH.payoutClaim dao i = .error ProgramError.InvalidAccountData) ∧
    (∀ c, dao.claims[i]? = some c → c.status ≠ CH.ClaimStatus.Verified →
       CH.payoutClaim dao i = .error ProgramError.InvalidAccountData) ∧
    (∀ c, dao.claims[i]? = some c → c.status = CH.ClaimStatus.Verified →
       (CH.payoutClaim dao i).isOk = true) :=
  ⟨fun h => by simp [CH.payoutClaim, h],
   fun c hc hs => by simp [CH.payoutClaim, hc, hs],
   fun c hc hs => by
     simp [CH.payoutClaim, hc, hs, Except.isOk, Except.toBool]⟩

/-- Witness for C3: paying out the concrete `Pending` claim of `exChDaoDup`
fails with `InvalidAccountData`. -/
theorem C3_witness :
    exChDaoDup.claims[0]? = some { exClaimPending with verifiers := [5] } ∧
    CH.payoutClaim exChDaoDup 0 = .error ProgramError.InvalidAccountData :=
  ⟨rfl, (C3_theorem exChDaoDup 0).2.1 _ rfl (by decide)⟩

/-- Claim C4: when the claim exists and the claimant's risk bucket has a
profile, the payout arm fails with `InvalidArgument` (the code's
`LimitExceededError`) whenever `claim.amount > coverage_limit`, and fails
with `InsufficientFunds` whenever the coverage check passes but
`balance − floor(balance × reserve_ratio) < claim.amount`; the coverage
check runs first, so an input violating both yields `InvalidArgument`. -/
theorem C4_theorem (dao : FRM.HealthInsuranceDAO) (i : Nat) (c : CH.Claim)
    (rp : FRM.RiskProfile) (hc : dao.claims[i]? = some c)
    (hrp : dao.risk_profiles.find?
      (fun p => p.risk_score == FRM.calculate_risk_score c.member) = some rp) :
    (c.amount > rp.coverage_limit →
       FRM.payoutClaim dao i = .error ProgramError.InvalidArgument) ∧
    (c.amount ≤ rp.coverage_limit →
       dao.treasury.balance - FRM.required_reserve dao.treasury < c.amount →
       FRM.payoutClaim dao i = .error ProgramError.InsufficientFunds) := by
  constructor
  · intro hgt
    simp [FRM.payoutClaim, hc, hrp, hgt]
  · intro hle hres
    have hng : ¬ (c.amount > rp.coverage_limit) := not_lt.mpr hle
    simp [FRM.payoutClaim, hc, hrp, hng, hres]

/-- Witness for C4: in `exFrmDaoLim` the claim amount `2000` violates both
the coverage limit `1000` and the reserve-adjusted balance
`1000 − ⌊1000 × 1/2⌋ = 500`, and the payout fails with `InvalidArgument` —
the coverage check fires first. -/
theorem C4_witness :
    exFrmDaoLim.claims[0]? = some { exClaimVerified with amount := 2000 } ∧
    exFrmDaoLim.risk_profiles.find?
      (fun p => p.risk_score == FRM.calculate_risk_score
        ({ exClaimVerified with amount := 2000 } : CH.Claim).member)
      = some ⟨7, 1000⟩ ∧
    ({ exClaimVerified with amount := 2000 } : CH.Claim).amount
      > (⟨7, 1000⟩ : FRM.RiskProfile).coverage_limit ∧
    exFrmDaoLim.treasury.balance - FRM.required_reserve exFrmDaoLim.treasury
      < ({ exClaimVerified with amount := 2000 } : CH.Claim).amount ∧
    FRM.payoutClaim exFrmDaoLim 0 = .error ProgramError.InvalidArgument :=
  ⟨rfl, rfl, by decide,
   by norm_num [exFrmDaoLim, FRM.required_reserve]; decide,
   (C4_theorem exFrmDaoLim 0 _ _ rfl rfl).1 (by decide)⟩

/-- Claim C6: on an `Open` dispute a fresh voter's vote is appended and the
dispute transitions to `Closed` in the same operation exactly when the vote
count then strictly exceeds `5` (the closure outcome is surfaced exactly in
that case); on a `Closed` dispute `CastVote` fails with
`InvalidInstructionData` (the code's `InvalidStateError`) and the persisted
state is unchanged. -/
theorem C6_theorem (dao : DR.HealthInsuranceDAO) (i : Nat) (d : DR.Dispute)
    (voter : Pubkey) (stance : Bool) (hd : dao.disputes[i]? = some d) :
    (d.status = DR.DisputeStatus.Open →
       d.votes.any (fun v => v.1 == voter) = false →
       DR.castVote dao voter i stance =
         .ok ({ dao with disputes := dao.disputes.set i { d with
                  votes := d.votes ++ [(voter, stance)]
                  status := if d.votes.length + 1 > 5
                            then DR.DisputeStatus.Closed
                            else DR.DisputeStatus.Open } },
              if d.votes.length + 1 > 5
              then some (DR.favorsInitiator (d.votes ++ [(voter, stance)]))
              else none)) ∧
    (d.status = DR.DisputeStatus.Closed →
       DR.castVote dao voter i stance
         = .error ProgramError.InvalidInstructionData ∧
       DR.persist dao (DR.Instr.CastVote voter i stance) = dao) := by
  constructor
  · intro hopen hdup
    obtain ⟨did, cid, ini, rsp, dsc, st, vs⟩ := d
    simp only at hopen hdup ⊢
    subst hopen
    unfold DR.castVote
    rw [hd]
    by_cases hlen : vs.length + 1 > 5
    · simp [hdup, hlen]
    · simp [hdup, hlen]
  · intro hclosed
    have herr : DR.castVote dao voter i stance
        = .error ProgramError.InvalidInstructionData := by
      unfold DR.castVote
      rw [hd]
      simp [hclosed]
    exact ⟨herr, by simp [DR.persist, DR.step, herr, Except.map]⟩

/-- Witness for C6: voter `6` votes on the concrete five-vote dispute of
`exDrDao`; the vote is appended, the count reaches `6 > 5` and the dispute
closes in the same operation. -/
theorem C6_witness :
    exDrDao.disputes[0]? = some exDispute5 ∧
    exDispute5.status = DR.DisputeStatus.Open ∧
    exDispute5.votes.any (fun v => v.1 == 6) = false ∧
    DR.castVote exDrDao 6 0 false = .ok (exDrDaoClosed, some false) :=
  ⟨rfl, rfl, rfl, by
    have h := (C6_theorem exDrDao 0 exDispute5 6 false rfl).1 rfl rfl
    simpa [exDrDao, exDrDaoClosed, exDispute5, DR.favorsInitiator] using h⟩

/-- Claim C7: whenever a `CastVote` closes a dispute (the operation surfaces
an outcome), the outcome favors the initiator iff twice the number of
`true`-stance votes strictly exceeds the total vote count; an exact tie
yields outcome `false`, favoring the respondent. -/
theorem C7_theorem (dao dao' : DR.HealthInsuranceDAO) (voter : Pubkey)
    (i : Nat) (stance out : Bool)
    (h : DR.castVote dao voter i stance = .ok (dao', some out)) :
    ∃ d', dao'.disputes[i]? = some d' ∧
      d'.status = DR.DisputeStatus.Closed ∧
      (out = true ↔
        2 * (d'.votes.filter (fun v => v.2)).length > d'.votes.length) ∧
      (2 * (d'.votes.filter (fun v => v.2)).length = d'.votes.length →
        out = false) := by
  unfold DR.castVote at h
  split at h
  next d hd =>
    split at h
    next hopen =>
      split at h
      next hdup => exact absurd h (by simp)
      next hdup =>
        dsimp only at h
        split at h
        next hlen =>
          have hlt : i < dao.disputes.length := (List.getElem?_eq_some.mp hd).1
          injection h with h
          rw [Prod.mk.injEq] at h
          obtain ⟨h1, h2⟩ := h
          subst h1
          injection h2 with h2
          subst h2
          refine ⟨_, List.getElem?_set_eq_of_lt _ hlt, rfl, ?_, ?_⟩
          · dsimp only
            simp only [DR.favorsInitiator, decide_eq_true_eq]
            omega
          · dsimp only
            intro hteq
            simp only [DR.favorsInitiator, decide_eq_false_iff_not]
            omega
        next hlen => exact absurd h (by simp)
    next hopen => exact absurd h (by simp)
  next hd => exact absurd h (by simp)

/-- Witness for C7: the closure produced in `C6_witness` has six votes of
which three support the initiator — an exact tie — and the computed outcome
is `false` (favoring the respondent). -/
theorem C7_witness :
    DR.castVote exDrDao 6 0 false = .ok (exDrDaoClosed, some false) ∧
    (∃ d', exDrDaoClosed.disputes[0]? = some d' ∧
      d'.status = DR.DisputeStatus.Closed ∧
      ((false : Bool) = true ↔
        2 * (d'.votes.filter (fun v => v.2)).length > d'.votes.length) ∧
      (2 * (d'.votes.filter (fun v => v.2)).length = d'.votes.length →
        (false : Bool) = false)) :=
  ⟨rfl, C7_theorem exDrDao exDrDaoClosed 6 0 false false rfl⟩

/-- Counterexample for C8: `exChDaoJoin` already holds a member with address
`3`, yet the join arm of `src/Claims_Handling.rs` accepts a second join with
the same identifier — there is no duplicate check in that file, and the
members list then contains address `3` twice. -/
theorem C8_counterexample :
    (exChDaoJoin.members.map (fun m => m.member_address)).count 3 = 1 ∧
    CH.join exChDaoJoin 3 1 =
      .ok { exChDaoJoin with members := [⟨3, 0⟩, ⟨3, 1⟩] } :=
  ⟨rfl, rfl⟩

/-- Claim C8 (amended): in the security-privacy program, `Join` with an
already-registered identifier fails with `AccountAlreadyInitialized` (the
code's `DuplicateMemberError`) and a successful `Join` preserves uniqueness
of member addresses; the join arm of the claims-handling program appends
unconditionally, so duplicates are possible there
(see `C8_counterexample`). -/
theorem C8_theorem (dao : SP.HealthInsuranceDAO) (k : Pubkey)
    (hash : List Nat) (now : Int) :
    (dao.members.any (fun m => m.member_address == k) = true →
       SP.join dao k hash 1 now = .error ProgramError.AccountAlreadyInUse) ∧
    (∀ role_byte dao', SP.join dao k hash role_byte now = .ok dao' →
       (dao.members.map (fun m => m.member_address)).Nodup →
       (dao'.members.map (fun m => m.member_address)).Nodup) := by
  constructor
  · intro hdup
    simp [SP.join, hdup]
  · intro rb dao' hok hnd
    unfold SP.join at hok
    split at hok
    · split at hok
      next hdup => exact absurd hok (by simp)
      next hdup =>
        injection hok with hok
        subst hok
        simp only [List.map_append, List.map_cons, List.map_nil]
        rw [List.nodup_append]
        refine ⟨hnd, List.nodup_singleton _, ?_⟩
        intro a ha hb
        rw [List.mem_singleton] at hb
        subst hb
        rcases List.mem_map.mp ha with ⟨m, hm, hma⟩
        exact hdup (List.any_eq_true.mpr ⟨m, hm, by simp [hma]⟩)
    · exact absurd hok (by simp)

/-- Witness for C8: joining `exSpDao` with the already-registered address
`3` fails with the duplicate-member error. -/
theorem C8_witness :
    exSpDao.members.any (fun m => m.member_address == 3) = true ∧
    SP.join exSpDao 3 [] 1 0 = .error ProgramError.AccountAlreadyInUse :=
  ⟨rfl, (C8_theorem exSpDao 3 [] 0).1 rfl⟩

/-- `updateFirst` finds nothing when no element satisfies the predicate. -/
theorem FRM.updateFirst_eq_none {α : Type} {p : α → Bool} {f : α → α}
    {xs : List α} (h : ∀ x ∈ xs, p x = false) :
    FRM.updateFirst p f xs = none := by
  induction xs with
  | nil => rfl
  | cons x xs ih =>
    simp [FRM.updateFirst, h x (by simp),
          ih (fun y hy => h y (by simp [hy]))]

/-- `updateFirst` rewrites exactly the first element satisfying the
predicate. -/
theorem FRM.updateFirst_append {α : Type} {p : α → Bool} {f : α → α}
    {pre post : List α} {x : α}
    (hpre : ∀ y ∈ pre, p y = false) (hx : p x = true) :
    FRM.updateFirst p f (pre ++ x :: post) = some (pre ++ f x :: post) := by
  induction pre with
  | nil => simp [FRM.updateFirst, hx]
  | cons y ys ih =>
    simp [FRM.updateFirst, hpre y (by simp),
          ih (fun z hz => hpre z (by simp [hz]))]

/-- Counterexample for C9: `exFrmDaoRisk` already holds a profile in bucket
`5`, yet `UpdateRiskProfile(5, 200)` called by member `7` (whose computed
score is `7`) appends a second bucket-`5` profile instead of updating the
existing one — the lookup key is the caller's computed score, not the
supplied `risk_score`. -/
theorem C9_counterexample :
    exFrmDaoRisk.risk_profiles = [⟨5, 100⟩] ∧
    FRM.updateRiskProfile exFrmDaoRisk 7 5 200 =
      .ok { exFrmDaoRisk with risk_profiles := [⟨5, 100⟩, ⟨5, 200⟩] } :=
  ⟨rfl, rfl⟩

/-- Claim C9 (amended): `UpdateRiskProfile(member, risk_score,
coverage_limit)` upserts keyed by `calculate_risk_score(member)` — not by
the supplied `risk_score`: when no stored profile's bucket equals the
caller's computed score a new profile is appended, and otherwise the first
such profile is overwritten in place with the supplied score and limit.
Because the written bucket need not equal the lookup key, the collection
can hold several profiles of the same bucket (see `C9_counterexample`). -/
theorem C9_theorem (dao : FRM.HealthInsuranceDAO) (member : Pubkey)
    (s l : Nat) :
    ((∀ rp ∈ dao.risk_profiles,
        rp.risk_score ≠ FRM.calculate_risk_score member) →
      FRM.updateRiskProfile dao member s l =
        .ok { dao with risk_profiles := dao.risk_profiles ++ [⟨s, l⟩] }) ∧
    (∀ pre rp post, dao.risk_profiles = pre ++ rp :: post →
      (∀ q ∈ pre, q.risk_score ≠ FRM.calculate_risk_score member) →
      rp.risk_score = FRM.calculate_risk_score member →
      FRM.updateRiskProfile dao member s l =
        .ok { dao with risk_profiles := pre ++ ⟨s, l⟩ :: post }) := by
  constructor
  · intro hnone
    have h : FRM.updateFirst
        (fun rp => FRM.calculate_risk_score member == rp.risk_score)
        (fun _ => ⟨s, l⟩) dao.risk_profiles = none :=
      FRM.updateFirst_eq_none (fun x hx => by
        rw [beq_eq_false_iff_ne]
        exact fun hh => (hnone x hx) hh.symm)
    simp [FRM.updateRiskProfile, h]
  · intro pre rp post hsplit hpre hrp
    have h : FRM.updateFirst
        (fun q => FRM.calculate_risk_score member == q.risk_score)
        (fun _ => ⟨s, l⟩) dao.risk_profiles
        = some (pre ++ (⟨s, l⟩ : FRM.RiskProfile) :: post) := by
      rw [hsplit]
      refine FRM.updateFirst_append (fun y hy => ?_) ?_
      · rw [beq_eq_false_iff_ne]
        exact fun hh => (hpre y hy) hh.symm
      · rw [beq_iff_eq]
        exact hrp.symm
    simp [FRM.updateRiskProfile, h]

/-- Witness for C9: member `5` (computed score `5`) updating with
`risk_score = 5` overwrites the stored bucket-`5` profile in place. -/
theorem C9_witness :
    exFrmDaoRisk.risk_profiles = [] ++ (⟨5, 100⟩ : FRM.RiskProfile) :: [] ∧
    (⟨5, 100⟩ : FRM.RiskProfile).risk_score = FRM.calculate_risk_score 5 ∧
    FRM.updateRiskProfile exFrmDaoRisk 5 5 300 =
      .ok { exFrmDaoRisk with
            risk_profiles := [] ++ (⟨5, 300⟩ : FRM.RiskProfile) :: [] } :=
  ⟨rfl, rfl,
   (C9_theorem exFrmDaoRisk 5 5 300).2 [] ⟨5, 100⟩ [] rfl (by simp) rfl⟩
